import Mathlib

/-!
Verification development for the profile credential store of a Stripe CLI
fork (`pkg/config/profile.go`).  The plaintext key-value backend (spf13/viper)
is embedded as a small state machine over flat association lists of dotted
keys; the secure secret backend is a second association list.  Machine
behaviour that lives outside the given sources (the redaction helper, the
key-format validator, the key-removal helper, the secure-backend accessors)
is modelled from the specification and marked as such in doc comments.

Time-dependent behaviour (`getKeyExpiresAt`, which reads the wall clock) is
modelled by passing the freshly computed expiry string as an explicit input
`exp` to the write path; environment variables are likewise explicit inputs.
-/

/-- Flat association map from dotted field paths to string values. -/
abbrev KV := List (String × String)

/-- First-match lookup in a `KV` map. -/
def lookupKV : KV → String → Option String
  | [], _ => none
  | (k, v) :: rest, key => if k = key then some v else lookupKV rest key

/-- Remove every binding of `key`. -/
def eraseKV : KV → String → KV
  | [], _ => []
  | (k, v) :: rest, key =>
    if k = key then eraseKV rest key else (k, v) :: eraseKV rest key

/-- Bind `key` to `val`, shadowing and dropping older bindings. -/
def setKV (m : KV) (key val : String) : KV :=
  (key, val) :: eraseKV m key

/-- Keep only the bindings of `lo` whose keys are absent from `hi`. -/
def filterAbsent (hi : KV) : KV → KV
  | [] => []
  | (k, v) :: rest =>
    if (lookupKV hi k).isSome then filterAbsent hi rest else (k, v) :: filterAbsent hi rest

/-- Left-biased union of two `KV` maps (`hi` wins). -/
def unionKV (hi lo : KV) : KV :=
  hi ++ filterAbsent hi lo

/-- Errors surfaced by the credential store (`validators` errors and the
formatted errors built in `profile.go`). -/
inductive CfgError where
  | APIKeyNotConfigured
  | InvalidAPIKey
  | DeviceNameNotConfigured
  | AccountIDNotConfigured
  | ColorNotSupported (c : String)
  | KeyNotFound (k : String)
  deriving DecidableEq

/-- ASCII whitespace recognised by `strings.TrimSpace`. -/
def isWS (c : Char) : Bool :=
  (c == ' ') || (c == '\t') || (c == '\n') || (c == '\r') || (c == '\x0b') || (c == '\x0c')

/-- Embedding of Go `strings.TrimSpace`: drop leading and trailing whitespace. -/
def trimSpace (s : String) : String :=
  ⟨((s.data.dropWhile isWS).reverse.dropWhile isWS).reverse⟩

/-- String prefix test over the underlying character list. -/
def strHasPrefix (pre s : String) : Bool :=
  pre.data.isPrefixOf s.data

/-- Modelled from the spec: `RedactAPIKey` is not among the given sources.
The spec describes the plaintext copy of a live-mode key as "a redacted
representation (reversible only via the secure backend)" and the glossary as
"a non-recoverable masked form of a secret": the identifying key prefix stays
visible and every character of the key is masked by `*`, so the masked form
is never the raw key. -/
def RedactAPIKey (apiKey : String) : String :=
  ⟨apiKey.data.take 8 ++ List.replicate apiKey.data.length '*'⟩

/-- Modelled from the spec: `validators.APIKey` is not among the given
sources.  Per the spec it is "a key-format checker
(`ValidateAPIKey(string) -> ok|InvalidFormat`)"; a read that finds no value
anywhere fails with `APIKeyNotConfigured` and a found but malformed value
fails with `InvalidAPIKey`.  The recognised shape is a Stripe secret or
restricted key of at least 12 characters. -/
def validateAPIKey (k : String) : Option CfgError :=
  if k = "" then some .APIKeyNotConfigured
  else if k.data.length < 12 then some .InvalidAPIKey
  else if strHasPrefix "sk_test_" k || strHasPrefix "sk_live_" k ||
          strHasPrefix "rk_test_" k || strHasPrefix "rk_live_" k then none
  else some .InvalidAPIKey

/-- State of the plaintext key-value backend (spf13/viper): values set in the
current process (`override`), values loaded from the config file (`config`),
the alias table, and whether a config file path is associated (a fresh
backend produced by `removeKey` has none until `SetConfigFile`).  Nested maps
are flattened to dotted keys; alias names are not re-listed in `allSettings`. -/
structure Viper where
  override : KV
  config : KV
  aliases : List (String × String)
  fileAssoc : Bool

/-- Alias-chain resolution with fuel (the backend only ever holds acyclic
alias tables; the fuel makes the recursion structural). -/
def realKeyAux : Nat → List (String × String) → String → String
  | 0, _, k => k
  | n + 1, al, k =>
    match lookupKV al k with
    | some k' => realKeyAux n al k'
    | none => k

/-- Resolve a key through the alias table. -/
def Viper.realKey (v : Viper) (k : String) : String :=
  realKeyAux v.aliases.length v.aliases k

/-- Backend search order after alias resolution: `Set` values first, then
config-file values. -/
def Viper.find (v : Viper) (k : String) : Option String :=
  let rk := v.realKey k
  (lookupKV v.override rk).or (lookupKV v.config rk)

/-- `GetString`: missing keys read as the empty string. -/
def Viper.getString (v : Viper) (k : String) : String :=
  (v.find k).getD ""

/-- `IsSet`: whether a value is found anywhere. -/
def Viper.isSet (v : Viper) (k : String) : Bool :=
  (v.find k).isSome

/-- `Set` writes to the override register, resolving aliases first. -/
def Viper.set (v : Viper) (k val : String) : Viper :=
  { v with override := setKV v.override (v.realKey k) val }

/-- Move the binding of `src` (if any) onto `dst`. -/
def moveKV (m : KV) (src dst : String) : KV :=
  match lookupKV m src with
  | some val => setKV (eraseKV m src) dst val
  | none => m

/-- `RegisterAlias`: refuses self-aliases, is idempotent, and moves any value
already stored under the alias name onto the canonical key so it stays
reachable (mirroring the backend's register-alias behaviour). -/
def Viper.registerAlias (v : Viper) (al key : String) : Viper :=
  if al = key ∨ al = v.realKey key then v
  else if (lookupKV v.aliases al).isSome then v
  else
    { v with
      override := moveKV v.override al key,
      config := moveKV v.config al key,
      aliases := (al, key) :: v.aliases }

/-- `AllSettings` as a flat map: override values shadow config values. -/
def Viper.allSettings (v : Viper) : KV :=
  unionKV v.override v.config

/-- `MergeInConfig`: merge the config-file map into the config register,
file values overwriting existing config entries. -/
def Viper.mergeFileMap (v : Viper) (fm : KV) : Viper :=
  { v with config := unionKV fm v.config }

/-- A profile: the in-memory fields populated for the current invocation
(`pkg/config/profile.go`). -/
structure Profile where
  DeviceName : String := ""
  ProfileName : String := ""
  APIKey : String := ""
  LiveModeAPIKey : String := ""
  LiveModePublishableKey : String := ""
  TestModeAPIKey : String := ""
  TestModePublishableKey : String := ""
  TerminalPOSDeviceID : String := ""
  DisplayName : String := ""
  AccountID : String := ""

def AccountIDName : String := "account_id"
def DeviceNameName : String := "device_name"
def DisplayNameName : String := "display_name"
def TestModeAPIKeyName : String := "test_mode_api_key"
def TestModePublishableKeyName : String := "test_mode_publishable_key"
def TestModeExpiresAtName : String := "test_mode_key_expires_at"
def LiveModeAPIKeyName : String := "live_mode_api_key"
def LiveModePublishableKeyName : String := "live_mode_publishable_key"
def LiveModeExpiresAtName : String := "live_mode_key_expires_at"

/-- Modelled from the spec: the color constants live outside the given
sources; the recognised enumeration is `{auto, on, off}`. -/
def ColorAuto : String := "auto"

def ColorOn : String := "on"

def ColorOff : String := "off"

/-- Whole-world state: the process-wide plaintext backend, the on-disk
config file (`none` when absent or unreadable), and the secure secret
backend. -/
structure Store where
  viper : Viper
  file : Option KV
  secure : KV

/-- `GetConfigField`: profile namespacing of a field name. -/
def Profile.GetConfigField (p : Profile) (field : String) : String :=
  p.ProfileName ++ "." ++ field

/-- `livemodeKeyField`: canonical key field for the given mode. -/
def livemodeKeyField (livemode : Bool) : String :=
  if livemode then LiveModeAPIKeyName else TestModeAPIKeyName

/-- Modelled from the spec: `storeLivemodeValue` is not among the given
sources; the secure backend contract is `Store(key, value, label)`, keyed by
profile and field (the human-readable label carries no state). -/
def Profile.storeLivemodeValue (p : Profile) (field value : String) (sec : KV) : KV :=
  setKV sec (p.GetConfigField field) value

/-- Modelled from the spec: `RetrieveLivemodeValue` is not among the given
sources; the secure backend contract is `Retrieve(key) -> value|absent`, an
absent entry reading as the empty string. -/
def Profile.RetrieveLivemodeValue (p : Profile) (field : String) (s : Store) : String :=
  (lookupKV s.secure (p.GetConfigField field)).getD ""

/-- External remover contract (`Delete(key) -> error|ok`); `removeKey` below
is its concrete instance, but the write path treats the remover as an
external collaborator that may fail. -/
abbrev RemoveFn := Viper → String → Except CfgError Viper

/-- Modelled from the spec: `removeKey` is not among the given sources; per
the spec it "removes exactly one namespaced field from the plaintext
backend" and "fails if the key does not exist".  It rebuilds a fresh backend
(no overrides, no aliases, no associated file yet) from the flattened
settings minus the removed key. -/
def removeKey : RemoveFn := fun v key =>
  if (lookupKV v.allSettings key).isSome then
    .ok { override := [], config := eraseKV v.allSettings key, aliases := [], fileAssoc := false }
  else
    .error (.KeyNotFound key)

/-- `safeRemove`: best-effort removal — a remover failure is swallowed and
the backend is returned unchanged. -/
def safeRemove (rk : RemoveFn) (p : Profile) (v : Viper) (key : String) : Viper :=
  if v.isSet (p.GetConfigField key) then
    match rk v (p.GetConfigField key) with
    | .ok nv => nv
    | .error _ => v
  else v

/-- Conditional `Set`, used to transcribe the guarded writes of
`writeProfile` field by field. -/
def setIf (b : Bool) (k val : String) (v : Viper) : Viper :=
  if b then v.set k val else v

/-- The plaintext `Set` calls of `writeProfile`, in source order; every
value is trimmed, live-mode values are redacted, and a key field carries a
companion expiry set under the same guard. -/
def writeProfileSets (p : Profile) (exp : String) (v : Viper) : Viper :=
  let v := setIf (p.DeviceName != "") (p.GetConfigField DeviceNameName) (trimSpace p.DeviceName) v
  let v := setIf (p.LiveModeAPIKey != "") (p.GetConfigField LiveModeAPIKeyName)
    (RedactAPIKey (trimSpace p.LiveModeAPIKey)) v
  let v := setIf (p.LiveModeAPIKey != "") (p.GetConfigField LiveModeExpiresAtName) exp v
  let v := setIf (p.LiveModePublishableKey != "") (p.GetConfigField LiveModePublishableKeyName)
    (RedactAPIKey (trimSpace p.LiveModePublishableKey)) v
  let v := setIf (p.TestModeAPIKey != "") (p.GetConfigField TestModeAPIKeyName)
    (trimSpace p.TestModeAPIKey) v
  let v := setIf (p.TestModeAPIKey != "") (p.GetConfigField TestModeExpiresAtName) exp v
  let v := setIf (p.TestModePublishableKey != "") (p.GetConfigField TestModePublishableKeyName)
    (trimSpace p.TestModePublishableKey) v
  let v := setIf (p.DisplayName != "") (p.GetConfigField DisplayNameName) (trimSpace p.DisplayName) v
  setIf (p.AccountID != "") (p.GetConfigField AccountIDName) (trimSpace p.AccountID) v

/-- The secure-backend `storeLivemodeValue` calls of `writeProfile`: raw
trimmed live-mode key with its expiry, and raw trimmed live-mode
publishable key. -/
def writeProfileSecure (p : Profile) (exp : String) (sec : KV) : KV :=
  let sec := if p.LiveModeAPIKey != "" then
    p.storeLivemodeValue LiveModeExpiresAtName exp
      (p.storeLivemodeValue LiveModeAPIKeyName (trimSpace p.LiveModeAPIKey) sec)
  else sec
  if p.LiveModePublishableKey != "" then
    p.storeLivemodeValue LiveModePublishableKeyName (trimSpace p.LiveModePublishableKey) sec
  else sec

/-- The post-merge legacy cleanup of `writeProfile`: best-effort removal of
`secret_key`/`api_key` after a test-mode API key write and of
`publishable_key` after a test-mode publishable key write. -/
def writeProfileCleanup (rk : RemoveFn) (p : Profile) (v : Viper) : Viper :=
  let v := if p.TestModeAPIKey != "" then
    safeRemove rk p (safeRemove rk p v "secret_key") "api_key"
  else v
  if p.TestModePublishableKey != "" then safeRemove rk p v "publishable_key" else v

/-- One run of `writeProfile` against a runtime backend: field sets, secure
stores, `MergeInConfig` (a merge error on a backend with no associated file
is ignored), legacy cleanup, then `WriteConfig`.  Returns the runtime
backend as mutated in place by the sets and the merge (the process-wide
backend when `writeProfile` runs on it), the map persisted to disk, and the
new secure backend. -/
def writeProfileRun (rk : RemoveFn) (p : Profile) (exp : String) (runtime : Viper)
    (file : Option KV) (sec : KV) : Viper × KV × KV :=
  let v1 := writeProfileSets p exp runtime
  let sec2 := writeProfileSecure p exp sec
  let v2 := if v1.fileAssoc then
    match file with
    | some fm => v1.mergeFileMap fm
    | none => v1
  else v1
  let v3 := writeProfileCleanup rk p v2
  (v2, v3.allSettings, sec2)

/-- `writeProfile` on the process-wide backend, parameterised by the
remover. -/
def writeProfileWith (rk : RemoveFn) (p : Profile) (exp : String) (s : Store) : Store :=
  let r := writeProfileRun rk p exp s.viper s.file s.secure
  { viper := r.1, file := some r.2.1, secure := r.2.2 }

/-- `writeProfile` with the concrete remover. -/
def Profile.writeProfile (p : Profile) (exp : String) (s : Store) : Store :=
  writeProfileWith removeKey p exp s

/-- `CreateProfile` commits the profile via `writeProfile`. -/
def Profile.CreateProfile (p : Profile) (exp : String) (s : Store) : Store :=
  p.writeProfile exp s

/-- `WriteConfigField`: set one namespaced field and persist the settings. -/
def Profile.WriteConfigField (p : Profile) (field value : String) (s : Store) : Store :=
  let v := s.viper.set (p.GetConfigField field) value
  { s with viper := v, file := some v.allSettings }

/-- `DeleteConfigField`, parameterised by the remover: remove the namespaced
field from the process-wide backend, then persist through `writeProfile`
running on the freshly built backend (the process-wide backend itself is not
replaced). -/
def Profile.DeleteConfigFieldWith (rk : RemoveFn) (p : Profile) (field exp : String)
    (s : Store) : Except CfgError Store :=
  match rk s.viper (p.GetConfigField field) with
  | .error e => .error e
  | .ok nv =>
    let r := writeProfileRun rk p exp nv s.file s.secure
    .ok { viper := s.viper, file := some r.2.1, secure := r.2.2 }

/-- `DeleteConfigField` with the concrete remover. -/
def Profile.DeleteConfigField (p : Profile) (field exp : String) (s : Store) :
    Except CfgError Store :=
  p.DeleteConfigFieldWith removeKey field exp s

/-- `GetColor`: global (cross-profile) override first, then the per-profile
persisted value against the recognised enumeration. -/
def Profile.GetColor (p : Profile) (s : Store) : Except CfgError String :=
  let color := s.viper.getString "color"
  if color != "" then .ok color
  else
    let c := s.viper.getString (p.GetConfigField "color")
    if c = "" ∨ c = ColorAuto then .ok ColorAuto
    else if c = ColorOn then .ok ColorOn
    else if c = ColorOff then .ok ColorOff
    else .error (.ColorNotSupported c)

/-- `GetDeviceName`: environment override (`STRIPE_DEVICE_NAME`, passed as
`envDevice`), then the in-memory field, then — when the config file is
readable — the persisted field; the error fires only when the config cannot
be read. -/
def Profile.GetDeviceName (p : Profile) (envDevice : String) (s : Store) :
    Except CfgError String × Store :=
  if envDevice != "" then (.ok envDevice, s)
  else if p.DeviceName != "" then (.ok p.DeviceName, s)
  else
    match s.file with
    | some fm =>
      let s2 := { s with viper := { s.viper with config := fm } }
      (.ok (s2.viper.getString (p.GetConfigField DeviceNameName)), s2)
    | none => (.error .DeviceNameNotConfigured, s)

/-- The legacy-alias step of `GetAPIKey` (test mode only): when `api_key` is
unset, alias it to `secret_key`; otherwise alias the canonical
`test_mode_api_key` to `api_key`. -/
def Profile.apiKeyAliasStep (p : Profile) (livemode : Bool) (s : Store) : Store :=
  if livemode then s
  else if s.viper.isSet (p.GetConfigField "api_key") then
    let v2 := s.viper.registerAlias (p.GetConfigField TestModeAPIKeyName)
      (p.GetConfigField "api_key")
    { s with viper := v2 }
  else
    let v2 := s.viper.registerAlias (p.GetConfigField "api_key")
      (p.GetConfigField "secret_key")
    { s with viper := v2 }

/-- `GetAPIKey`: environment override (`STRIPE_API_KEY`, passed as
`envKey`), then the in-memory `APIKey`, then — after the legacy-alias step
and a successful config read — the mode's canonical field, from the
plaintext backend in test mode and from the secure backend in live mode;
every candidate goes through the key-format validator. -/
def Profile.GetAPIKey (p : Profile) (livemode : Bool) (envKey : String) (s : Store) :
    Except CfgError String × Store :=
  if envKey != "" then
    (match validateAPIKey envKey with
     | some e => .error e
     | none => .ok envKey, s)
  else if p.APIKey != "" then
    (match validateAPIKey p.APIKey with
     | some e => .error e
     | none => .ok p.APIKey, s)
  else
    let s1 := p.apiKeyAliasStep livemode s
    match s1.file with
    | some fm =>
      let s2 := { s1 with viper := { s1.viper with config := fm } }
      let fieldID := livemodeKeyField livemode
      let key := if livemode then p.RetrieveLivemodeValue fieldID s2
                 else s2.viper.getString (p.GetConfigField fieldID)
      (match validateAPIKey key with
       | some e => .error e
       | none => .ok key, s2)
    | none => (.error .APIKeyNotConfigured, s1)

/-- Follows the claim's words (C3): the candidate value `GetAPIKey` is about
to return, by source precedence — the environment override, the in-memory
`APIKey`, or (when the config file is readable) the persisted value of the
mode's canonical field, plaintext in test mode and secure in live mode;
`none` when no candidate exists anywhere. -/
def apiKeyCandidateSpec (p : Profile) (livemode : Bool) (envKey : String) (s : Store) :
    Option String :=
  if envKey != "" then some envKey
  else if p.APIKey != "" then some p.APIKey
  else
    let s1 := p.apiKeyAliasStep livemode s
    match s1.file with
    | some fm =>
      let s2 := { s1 with viper := { s1.viper with config := fm } }
      let fieldID := livemodeKeyField livemode
      some (if livemode then p.RetrieveLivemodeValue fieldID s2
            else s2.viper.getString (p.GetConfigField fieldID))
    | none => none

/-- The config register a `writeProfile` run works against after the merge
step, as seen from the initial store. -/
def mergedConfig (s : Store) : KV :=
  match s.file, s.viper.fileAssoc with
  | some fm, true => unionKV fm s.viper.config
  | _, _ => s.viper.config

/-- Apply a list of guarded writes in order (head first). -/
def setList : List (Bool × String × String) → Viper → Viper
  | [], v => v
  | (b, k, val) :: rest, v => setList rest (setIf b k val v)

/-- The guarded plaintext writes of `writeProfile`, in source order, as
data. -/
def writeProfileFieldWrites (p : Profile) (exp : String) : List (Bool × String × String) :=
  [ (p.DeviceName != "", p.GetConfigField DeviceNameName, trimSpace p.DeviceName),
    (p.LiveModeAPIKey != "", p.GetConfigField LiveModeAPIKeyName,
      RedactAPIKey (trimSpace p.LiveModeAPIKey)),
    (p.LiveModeAPIKey != "", p.GetConfigField LiveModeExpiresAtName, exp),
    (p.LiveModePublishableKey != "", p.GetConfigField LiveModePublishableKeyName,
      RedactAPIKey (trimSpace p.LiveModePublishableKey)),
    (p.TestModeAPIKey != "", p.GetConfigField TestModeAPIKeyName, trimSpace p.TestModeAPIKey),
    (p.TestModeAPIKey != "", p.GetConfigField TestModeExpiresAtName, exp),
    (p.TestModePublishableKey != "", p.GetConfigField TestModePublishableKeyName,
      trimSpace p.TestModePublishableKey),
    (p.DisplayName != "", p.GetConfigField DisplayNameName, trimSpace p.DisplayName),
    (p.AccountID != "", p.GetConfigField AccountIDName, trimSpace p.AccountID) ]

/-- The value a list of guarded writes leaves under `k` (later writes
shadow earlier ones). -/
def wsLookup : List (Bool × String × String) → String → Option String
  | [], _ => none
  | (b, key, val) :: rest, k =>
    (wsLookup rest k).or (if b = true ∧ k = key then some val else none)

/-- A remover observes the external `Delete(key) -> error|ok` contract: a
successful removal yields a backend with an empty alias table whose settings
are the old ones minus exactly the removed key.  (Failures are
unconstrained.) -/
def IsRemover (rk : RemoveFn) : Prop :=
  ∀ v key v', rk v key = .ok v' →
    v'.aliases = [] ∧
    ∀ k, lookupKV v'.allSettings k = if k = key then none else lookupKV v.allSettings k

/-- Concrete legacy-only profile and store for the migration run: the
plaintext backend holds `p.secret_key` and nothing else, the config file is
readable, and no environment override or in-memory key is present. -/
def legacyProfile : Profile := { ProfileName := "p" }

def legacyStore : Store :=
  { viper :=
      { override := [], config := [("p.secret_key", "sk_test_legacy")], aliases := [],
        fileAssoc := true },
    file := some [("p.secret_key", "sk_test_legacy")],
    secure := [] }

/-- Concrete inputs for the device-name read: readable config file without a
`device_name` field, no override, no in-memory value. -/
def devProfile : Profile := { ProfileName := "p" }

def devStore : Store :=
  { viper := { override := [], config := [("p.color", "on")], aliases := [], fileAssoc := true },
    file := some [("p.color", "on")],
    secure := [] }

/-- Concrete inputs for the color read: a cross-profile override holding an
unsupported value. -/
def colorProfile : Profile := { ProfileName := "p" }

def colorStore : Store :=
  { viper := { override := [("color", "purple")], config := [], aliases := [], fileAssoc := true },
    file := some [],
    secure := [] }

/-- Concrete inputs for the deletion run: a profile that still carries an
in-memory `DeviceName`, and a persisted profile with a `color` field and an
older `device_name`. -/
def delProfile : Profile := { ProfileName := "p", DeviceName := "newdev" }

def delStore : Store :=
  { viper :=
      { override := [], config := [("p.color", "on"), ("p.device_name", "old")],
        aliases := [], fileAssoc := true },
    file := some [("p.color", "on"), ("p.device_name", "old")],
    secure := [] }

/-- A fresh file-associated backend and store for concrete runs. -/
def emptyViper : Viper := { override := [], config := [], aliases := [], fileAssoc := true }

def emptyStore : Store := { viper := emptyViper, file := some [], secure := [] }

/-- Concrete profiles carrying one credential each, with surrounding
whitespace to exercise trimming. -/
def liveProfile : Profile := { ProfileName := "p", LiveModeAPIKey := " sk_live_abcdefgh " }

def testProfile : Profile := { ProfileName := "p", TestModeAPIKey := " sk_test_abcdefgh " }

/-- A remover that always fails, exercising the best-effort swallowing of
removal errors. -/
def failRemove : RemoveFn := fun _ key => .error (.KeyNotFound key)

/-! ## Association-map laws -/

theorem lookupKV_eraseKV (m : KV) (key k : String) :
    lookupKV (eraseKV m key) k = if k = key then none else lookupKV m k := by
  induction m with
  | nil => simp [eraseKV, lookupKV]
  | cons hd t ih =>
    obtain ⟨a, b⟩ := hd
    by_cases hak : a = key
    · subst hak
      have he : eraseKV ((a, b) :: t) a = eraseKV t a := by simp [eraseKV]
      rw [he, ih]
      by_cases hk : k = a
      · simp [hk]
      · simp [lookupKV, hk, Ne.symm hk]
    · have he : eraseKV ((a, b) :: t) key = (a, b) :: eraseKV t key := by simp [eraseKV, hak]
      rw [he]
      by_cases hka : a = k
      · subst hka
        simp [lookupKV, hak]
      · simp [lookupKV, hka, ih]

theorem lookupKV_setKV (m : KV) (key val k : String) :
    lookupKV (setKV m key val) k = if k = key then some val else lookupKV m k := by
  by_cases hk : k = key
  · subst hk
    simp [setKV, lookupKV]
  · simp [setKV, lookupKV, hk, Ne.symm hk, lookupKV_eraseKV]

theorem lookupKV_append (l1 l2 : KV) (k : String) :
    lookupKV (l1 ++ l2) k = (lookupKV l1 k).or (lookupKV l2 k) := by
  induction l1 with
  | nil => simp [lookupKV]
  | cons hd t ih =>
    obtain ⟨a, b⟩ := hd
    by_cases hk : a = k <;> simp [lookupKV, hk, ih, Option.or]

theorem lookupKV_filterAbsent (hi lo : KV) (k : String) :
    lookupKV (filterAbsent hi lo) k =
      if (lookupKV hi k).isSome then none else lookupKV lo k := by
  induction lo with
  | nil => simp [filterAbsent, lookupKV]
  | cons hd t ih =>
    obtain ⟨a, b⟩ := hd
    by_cases hka : a = k
    · subst hka
      by_cases hhi : (lookupKV hi a).isSome <;> simp [filterAbsent, lookupKV, hhi, ih]
    · by_cases hhi : (lookupKV hi a).isSome <;> simp [filterAbsent, lookupKV, hka, hhi, ih]

theorem lookupKV_unionKV (hi lo : KV) (k : String) :
    lookupKV (unionKV hi lo) k = (lookupKV hi k).or (lookupKV lo k) := by
  rw [unionKV, lookupKV_append, lookupKV_filterAbsent]
  cases h : lookupKV hi k <;> simp [h, Option.or]

theorem filterAbsent_nil (lo : KV) : filterAbsent [] lo = lo := by
  induction lo with
  | nil => rfl
  | cons hd t ih => obtain ⟨a, b⟩ := hd; simp [filterAbsent, lookupKV, ih]

theorem unionKV_nil_left (lo : KV) : unionKV [] lo = lo := by
  simp [unionKV, filterAbsent_nil]

/-! ## String and namespacing laws -/

theorem data_of_append (a b : String) : (a ++ b).data = a.data ++ b.data := rfl

theorem string_eq_of_data (a b : String) (h : a.data = b.data) : a = b :=
  congrArg String.mk h

theorem GetConfigField_eq_iff (p : Profile) (f g : String) :
    p.GetConfigField f = p.GetConfigField g ↔ f = g := by
  constructor
  · intro h
    have h2 := congrArg String.data h
    simp only [Profile.GetConfigField, data_of_append, List.append_assoc] at h2
    exact string_eq_of_data _ _ (List.append_cancel_left (List.append_cancel_left h2))
  · intro h
    rw [h]

theorem trimSpace_empty : trimSpace "" = "" := rfl

theorem ne_empty_of_trim (s : String) (h : trimSpace s ≠ "") : s ≠ "" := by
  intro hs
  exact h (by rw [hs]; rfl)

theorem data_nil_iff (s : String) : s.data = [] ↔ s = "" :=
  ⟨fun h => congrArg String.mk h, fun h => congrArg String.data h⟩

theorem RedactAPIKey_ne (k : String) (h : k ≠ "") : RedactAPIKey k ≠ k := by
  intro he
  have hlen := congrArg (fun s : String => s.data.length) he
  simp only [RedactAPIKey, List.length_append, List.length_take, List.length_replicate] at hlen
  have hk : k.data ≠ [] := fun hnil => h ((data_nil_iff k).mp hnil)
  have hpos : 0 < k.data.length := List.length_pos.mpr hk
  omega

/-! ## Backend laws for alias-free states -/

theorem realKey_of_aliases_nil (v : Viper) (h : v.aliases = []) (k : String) :
    v.realKey k = k := by
  simp [Viper.realKey, h, realKeyAux]

theorem find_of_aliases_nil (v : Viper) (h : v.aliases = []) (k : String) :
    v.find k = lookupKV v.allSettings k := by
  simp [Viper.find, Viper.allSettings, lookupKV_unionKV, realKey_of_aliases_nil v h]

theorem isSet_of_aliases_nil (v : Viper) (h : v.aliases = []) (k : String) :
    v.isSet k = (lookupKV v.allSettings k).isSome := by
  simp [Viper.isSet, find_of_aliases_nil v h]

theorem set_override_of_aliases_nil (v : Viper) (h : v.aliases = []) (k val : String) :
    (v.set k val).override = setKV v.override k val := by
  simp [Viper.set, realKey_of_aliases_nil v h]

theorem set_config (v : Viper) (k val : String) : (v.set k val).config = v.config := rfl

theorem set_aliases (v : Viper) (k val : String) : (v.set k val).aliases = v.aliases := rfl

theorem set_fileAssoc (v : Viper) (k val : String) : (v.set k val).fileAssoc = v.fileAssoc := rfl

theorem setIf_config (b : Bool) (k val : String) (v : Viper) :
    (setIf b k val v).config = v.config := by
  unfold setIf; split <;> rfl

theorem setIf_aliases (b : Bool) (k val : String) (v : Viper) :
    (setIf b k val v).aliases = v.aliases := by
  unfold setIf; split <;> rfl

theorem setIf_fileAssoc (b : Bool) (k val : String) (v : Viper) :
    (setIf b k val v).fileAssoc = v.fileAssoc := by
  unfold setIf; split <;> rfl

theorem lookupKV_setIf_override (b : Bool) (k val : String) (v : Viper)
    (h : v.aliases = []) (k' : String) :
    lookupKV (setIf b k val v).override k' =
      if b = true ∧ k' = k then some val else lookupKV v.override k' := by
  unfold setIf
  cases b with
  | false => simp
  | true =>
    rw [if_pos rfl, set_override_of_aliases_nil v h, lookupKV_setKV]
    by_cases hk : k' = k <;> simp [hk]

theorem setList_config (ws : List (Bool × String × String)) (v : Viper) :
    (setList ws v).config = v.config := by
  induction ws generalizing v with
  | nil => rfl
  | cons hd t ih =>
    obtain ⟨b, k, val⟩ := hd
    simp [setList, ih, setIf_config]

theorem setList_aliases (ws : List (Bool × String × String)) (v : Viper) :
    (setList ws v).aliases = v.aliases := by
  induction ws generalizing v with
  | nil => rfl
  | cons hd t ih =>
    obtain ⟨b, k, val⟩ := hd
    simp [setList, ih, setIf_aliases]

theorem setList_fileAssoc (ws : List (Bool × String × String)) (v : Viper) :
    (setList ws v).fileAssoc = v.fileAssoc := by
  induction ws generalizing v with
  | nil => rfl
  | cons hd t ih =>
    obtain ⟨b, k, val⟩ := hd
    simp [setList, ih, setIf_fileAssoc]

theorem lookupKV_setList_override (ws : List (Bool × String × String)) (v : Viper)
    (h : v.aliases = []) (k : String) :
    lookupKV (setList ws v).override k =
      (wsLookup ws k).or (lookupKV v.override k) := by
  induction ws generalizing v with
  | nil => simp [setList, wsLookup, Option.or]
  | cons hd t ih =>
    obtain ⟨b, key, val⟩ := hd
    have h2 : (setIf b key val v).aliases = [] := by rw [setIf_aliases, h]
    rw [setList, ih (setIf b key val v) h2, wsLookup, lookupKV_setIf_override b key val v h k]
    cases hw : wsLookup t k <;>
      by_cases hc : b = true ∧ k = key <;> simp [hc, Option.or]

/-! ## The write path, field by field -/

theorem writeProfileSets_eq_setList (p : Profile) (exp : String) (v : Viper) :
    writeProfileSets p exp v = setList (writeProfileFieldWrites p exp) v := rfl

theorem wsLookup_live (p : Profile) (exp : String) (h : p.LiveModeAPIKey ≠ "") :
    wsLookup (writeProfileFieldWrites p exp) (p.GetConfigField LiveModeAPIKeyName) =
      some (RedactAPIKey (trimSpace p.LiveModeAPIKey)) := by
  simp [writeProfileFieldWrites, wsLookup, GetConfigField_eq_iff, h, Option.or,
    AccountIDName, DeviceNameName, DisplayNameName, TestModeAPIKeyName,
    TestModePublishableKeyName, TestModeExpiresAtName, LiveModeAPIKeyName,
    LiveModePublishableKeyName, LiveModeExpiresAtName]

theorem wsLookup_liveExp (p : Profile) (exp : String) (h : p.LiveModeAPIKey ≠ "") :
    wsLookup (writeProfileFieldWrites p exp) (p.GetConfigField LiveModeExpiresAtName) =
      some exp := by
  simp [writeProfileFieldWrites, wsLookup, GetConfigField_eq_iff, h, Option.or,
    AccountIDName, DeviceNameName, DisplayNameName, TestModeAPIKeyName,
    TestModePublishableKeyName, TestModeExpiresAtName, LiveModeAPIKeyName,
    LiveModePublishableKeyName, LiveModeExpiresAtName]

theorem wsLookup_test (p : Profile) (exp : String) (h : p.TestModeAPIKey ≠ "") :
    wsLookup (writeProfileFieldWrites p exp) (p.GetConfigField TestModeAPIKeyName) =
      some (trimSpace p.TestModeAPIKey) := by
  simp [writeProfileFieldWrites, wsLookup, GetConfigField_eq_iff, h, Option.or,
    AccountIDName, DeviceNameName, DisplayNameName, TestModeAPIKeyName,
    TestModePublishableKeyName, TestModeExpiresAtName, LiveModeAPIKeyName,
    LiveModePublishableKeyName, LiveModeExpiresAtName]

theorem wsLookup_other (p : Profile) (exp : String) (k : String)
    (h1 : k ≠ p.GetConfigField DeviceNameName)
    (h2 : k ≠ p.GetConfigField LiveModeAPIKeyName)
    (h3 : k ≠ p.GetConfigField LiveModeExpiresAtName)
    (h4 : k ≠ p.GetConfigField LiveModePublishableKeyName)
    (h5 : k ≠ p.GetConfigField TestModeAPIKeyName)
    (h6 : k ≠ p.GetConfigField TestModeExpiresAtName)
    (h7 : k ≠ p.GetConfigField TestModePublishableKeyName)
    (h8 : k ≠ p.GetConfigField DisplayNameName)
    (h9 : k ≠ p.GetConfigField AccountIDName) :
    wsLookup (writeProfileFieldWrites p exp) k = none := by
  simp [writeProfileFieldWrites, wsLookup, h1, h2, h3, h4, h5, h6, h7, h8, h9, Option.or]

theorem secure_lookup_live (p : Profile) (exp : String) (sec : KV)
    (h : p.LiveModeAPIKey ≠ "") :
    lookupKV (writeProfileSecure p exp sec) (p.GetConfigField LiveModeAPIKeyName) =
      some (trimSpace p.LiveModeAPIKey) := by
  by_cases hp : p.LiveModePublishableKey = "" <;>
    simp [writeProfileSecure, Profile.storeLivemodeValue, h, hp, lookupKV_setKV,
      GetConfigField_eq_iff, LiveModeAPIKeyName, LiveModeExpiresAtName,
      LiveModePublishableKeyName]

theorem secure_lookup_liveExp (p : Profile) (exp : String) (sec : KV)
    (h : p.LiveModeAPIKey ≠ "") :
    lookupKV (writeProfileSecure p exp sec) (p.GetConfigField LiveModeExpiresAtName) =
      some exp := by
  by_cases hp : p.LiveModePublishableKey = "" <;>
    simp [writeProfileSecure, Profile.storeLivemodeValue, h, hp, lookupKV_setKV,
      GetConfigField_eq_iff, LiveModeAPIKeyName, LiveModeExpiresAtName,
      LiveModePublishableKeyName]

theorem secure_unchanged (p : Profile) (exp : String) (sec : KV)
    (hL : p.LiveModeAPIKey = "") (hLP : p.LiveModePublishableKey = "") :
    writeProfileSecure p exp sec = sec := by
  simp [writeProfileSecure, hL, hLP]

/-! ## Removal laws -/

theorem removeKey_isRemover : IsRemover removeKey := by
  intro v key v' h
  unfold removeKey at h
  by_cases hs : (lookupKV v.allSettings key).isSome
  · rw [if_pos hs] at h
    injection h with h2
    subst h2
    refine ⟨rfl, ?_⟩
    intro k
    show lookupKV (unionKV [] (eraseKV v.allSettings key)) k = _
    rw [unionKV_nil_left, lookupKV_eraseKV]
  · rw [if_neg hs] at h
    simp at h

theorem safeRemove_aliases (rk : RemoveFn) (hrk : IsRemover rk) (p : Profile) (v : Viper)
    (key : String) (hv : v.aliases = []) : (safeRemove rk p v key).aliases = [] := by
  unfold safeRemove
  by_cases hset : v.isSet (p.GetConfigField key) = true
  · rw [if_pos hset]
    cases hr : rk v (p.GetConfigField key) with
    | ok nv => exact (hrk _ _ _ hr).1
    | error e => exact hv
  · rw [if_neg hset]
    exact hv

theorem lookupKV_safeRemove_ne (rk : RemoveFn) (hrk : IsRemover rk) (p : Profile)
    (v : Viper) (key k : String) (hk : k ≠ p.GetConfigField key) :
    lookupKV (safeRemove rk p v key).allSettings k = lookupKV v.allSettings k := by
  unfold safeRemove
  by_cases hset : v.isSet (p.GetConfigField key) = true
  · rw [if_pos hset]
    cases hr : rk v (p.GetConfigField key) with
    | ok nv => rw [(hrk _ _ _ hr).2 k, if_neg hk]
    | error e => rfl
  · rw [if_neg hset]

theorem lookupKV_safeRemove_self (p : Profile) (v : Viper) (key : String)
    (hv : v.aliases = []) :
    lookupKV (safeRemove removeKey p v key).allSettings (p.GetConfigField key) = none := by
  unfold safeRemove
  by_cases hset : v.isSet (p.GetConfigField key) = true
  · rw [if_pos hset]
    have hsome : (lookupKV v.allSettings (p.GetConfigField key)).isSome := by
      rw [isSet_of_aliases_nil v hv] at hset
      exact hset
    cases hr : removeKey v (p.GetConfigField key) with
    | ok nv => rw [(removeKey_isRemover _ _ _ hr).2 _, if_pos rfl]
    | error e =>
      exfalso
      unfold removeKey at hr
      rw [if_pos hsome] at hr
      simp at hr
  · rw [if_neg hset]
    rw [isSet_of_aliases_nil v hv] at hset
    simp at hset
    rw [hset]

theorem cleanup_aliases (rk : RemoveFn) (hrk : IsRemover rk) (p : Profile) (v : Viper)
    (hv : v.aliases = []) : (writeProfileCleanup rk p v).aliases = [] := by
  simp only [writeProfileCleanup]
  split
  · split
    · exact safeRemove_aliases rk hrk p _ _
        (safeRemove_aliases rk hrk p _ _ (safeRemove_aliases rk hrk p v _ hv))
    · exact safeRemove_aliases rk hrk p _ _ hv
  · split
    · exact safeRemove_aliases rk hrk p _ _ (safeRemove_aliases rk hrk p v _ hv)
    · exact hv

theorem lookupKV_cleanup_ne (rk : RemoveFn) (hrk : IsRemover rk) (p : Profile) (v : Viper)
    (k : String)
    (h1 : k ≠ p.GetConfigField "secret_key")
    (h2 : k ≠ p.GetConfigField "api_key")
    (h3 : k ≠ p.GetConfigField "publishable_key") :
    lookupKV (writeProfileCleanup rk p v).allSettings k = lookupKV v.allSettings k := by
  simp only [writeProfileCleanup]
  split
  · split
    · rw [lookupKV_safeRemove_ne rk hrk p _ _ _ h3,
        lookupKV_safeRemove_ne rk hrk p _ _ _ h2,
        lookupKV_safeRemove_ne rk hrk p _ _ _ h1]
    · rw [lookupKV_safeRemove_ne rk hrk p _ _ _ h3]
  · split
    · rw [lookupKV_safeRemove_ne rk hrk p _ _ _ h2,
        lookupKV_safeRemove_ne rk hrk p _ _ _ h1]
    · rfl

theorem GetConfigField_ne (p : Profile) (f g : String) (h : f ≠ g) :
    p.GetConfigField f ≠ p.GetConfigField g :=
  fun he => h ((GetConfigField_eq_iff p f g).mp he)

/-! ## What one `writeProfile` run persists -/

theorem writeProfileRun_file_lookup (rk : RemoveFn) (hrk : IsRemover rk) (p : Profile)
    (exp : String) (runtime : Viper) (file : Option KV) (sec : KV)
    (hal : runtime.aliases = []) (k : String)
    (h1 : k ≠ p.GetConfigField "secret_key")
    (h2 : k ≠ p.GetConfigField "api_key")
    (h3 : k ≠ p.GetConfigField "publishable_key") :
    lookupKV (writeProfileRun rk p exp runtime file sec).2.1 k =
      (wsLookup (writeProfileFieldWrites p exp) k).or
        ((lookupKV runtime.override k).or
          (lookupKV (match file, runtime.fileAssoc with
            | some fm, true => unionKV fm runtime.config
            | _, _ => runtime.config) k)) := by
  have hfa : (writeProfileSets p exp runtime).fileAssoc = runtime.fileAssoc := by
    rw [writeProfileSets_eq_setList, setList_fileAssoc]
  have hcfg : (writeProfileSets p exp runtime).config = runtime.config := by
    rw [writeProfileSets_eq_setList, setList_config]
  have hov : lookupKV (writeProfileSets p exp runtime).override k =
      (wsLookup (writeProfileFieldWrites p exp) k).or (lookupKV runtime.override k) := by
    rw [writeProfileSets_eq_setList, lookupKV_setList_override _ _ hal]
  simp only [writeProfileRun]
  rw [lookupKV_cleanup_ne rk hrk p _ k h1 h2 h3]
  cases hf : file with
  | some fm =>
    cases hfa2 : runtime.fileAssoc with
    | true =>
      simp only [hfa, hfa2, if_true, Viper.mergeFileMap, Viper.allSettings,
        lookupKV_unionKV, hov, hcfg, Option.or_assoc]
    | false =>
      simp only [hfa, hfa2, Bool.false_eq_true, if_false, Viper.allSettings,
        lookupKV_unionKV, hov, hcfg, Option.or_assoc]
  | none =>
    cases hfa2 : runtime.fileAssoc with
    | true =>
      simp only [hfa, hfa2, if_true, Viper.allSettings,
        lookupKV_unionKV, hov, hcfg, Option.or_assoc]
    | false =>
      simp only [hfa, hfa2, Bool.false_eq_true, if_false, Viper.allSettings,
        lookupKV_unionKV, hov, hcfg, Option.or_assoc]

theorem lookupKV_cleanup_legacy (p : Profile) (v : Viper) (hv : v.aliases = [])
    (hT : p.TestModeAPIKey ≠ "") :
    lookupKV (writeProfileCleanup removeKey p v).allSettings
        (p.GetConfigField "secret_key") = none ∧
    lookupKV (writeProfileCleanup removeKey p v).allSettings
        (p.GetConfigField "api_key") = none := by
  have hrm := removeKey_isRemover
  have hTb : (p.TestModeAPIKey != "") = true := by simpa using hT
  have hsal : (safeRemove removeKey p v "secret_key").aliases = [] :=
    safeRemove_aliases removeKey hrm p v _ hv
  simp only [writeProfileCleanup]
  constructor
  · by_cases hTP : (p.TestModePublishableKey != "") = true
    · rw [if_pos hTP, if_pos hTb,
        lookupKV_safeRemove_ne removeKey hrm p _ _ _ (GetConfigField_ne p _ _ (by decide)),
        lookupKV_safeRemove_ne removeKey hrm p _ _ _ (GetConfigField_ne p _ _ (by decide))]
      exact lookupKV_safeRemove_self p _ _ hv
    · rw [if_neg hTP, if_pos hTb,
        lookupKV_safeRemove_ne removeKey hrm p _ _ _ (GetConfigField_ne p _ _ (by decide))]
      exact lookupKV_safeRemove_self p _ _ hv
  · by_cases hTP : (p.TestModePublishableKey != "") = true
    · rw [if_pos hTP, if_pos hTb,
        lookupKV_safeRemove_ne removeKey hrm p _ _ _ (GetConfigField_ne p _ _ (by decide))]
      exact lookupKV_safeRemove_self p _ _ hsal
    · rw [if_neg hTP, if_pos hTb]
      exact lookupKV_safeRemove_self p _ _ hsal

theorem lookupKV_cleanup_pub (p : Profile) (v : Viper) (hv : v.aliases = [])
    (hTP : p.TestModePublishableKey ≠ "") :
    lookupKV (writeProfileCleanup removeKey p v).allSettings
        (p.GetConfigField "publishable_key") = none := by
  have hrm := removeKey_isRemover
  have hTPb : (p.TestModePublishableKey != "") = true := by simpa using hTP
  simp only [writeProfileCleanup]
  rw [if_pos hTPb]
  by_cases hT : (p.TestModeAPIKey != "") = true
  · rw [if_pos hT]
    exact lookupKV_safeRemove_self p _ _
      (safeRemove_aliases removeKey hrm p _ _ (safeRemove_aliases removeKey hrm p v _ hv))
  · rw [if_neg hT]
    exact lookupKV_safeRemove_self p _ _ hv

theorem mergeStep_aliases (p : Profile) (exp : String) (runtime : Viper) (file : Option KV)
    (hal : runtime.aliases = []) :
    (if (writeProfileSets p exp runtime).fileAssoc then
      match file with
      | some fm => (writeProfileSets p exp runtime).mergeFileMap fm
      | none => writeProfileSets p exp runtime
     else writeProfileSets p exp runtime).aliases = [] := by
  have hsal : (writeProfileSets p exp runtime).aliases = [] := by
    rw [writeProfileSets_eq_setList, setList_aliases]
    exact hal
  split
  · cases file <;> simp [Viper.mergeFileMap, hsal]
  · exact hsal

theorem writeProfileSets_empty (p : Profile) (exp : String) (v : Viper)
    (hD : p.DeviceName = "") (hL : p.LiveModeAPIKey = "") (hLP : p.LiveModePublishableKey = "")
    (hT : p.TestModeAPIKey = "") (hTP : p.TestModePublishableKey = "")
    (hDis : p.DisplayName = "") (hAcc : p.AccountID = "") :
    writeProfileSets p exp v = v := by
  simp [writeProfileSets, setIf, hD, hL, hLP, hT, hTP, hDis, hAcc]

theorem writeProfileCleanup_empty (rk : RemoveFn) (p : Profile) (v : Viper)
    (hT : p.TestModeAPIKey = "") (hTP : p.TestModePublishableKey = "") :
    writeProfileCleanup rk p v = v := by
  simp [writeProfileCleanup, hT, hTP]

theorem writeProfileWith_file_lookup (rk : RemoveFn) (hrk : IsRemover rk) (p : Profile)
    (exp : String) (s : Store) (hal : s.viper.aliases = []) (k : String)
    (h1 : k ≠ p.GetConfigField "secret_key")
    (h2 : k ≠ p.GetConfigField "api_key")
    (h3 : k ≠ p.GetConfigField "publishable_key") :
    lookupKV ((writeProfileWith rk p exp s).file.getD []) k =
      (wsLookup (writeProfileFieldWrites p exp) k).or
        ((lookupKV s.viper.override k).or (lookupKV (mergedConfig s) k)) :=
  writeProfileRun_file_lookup rk hrk p exp s.viper s.file s.secure hal k h1 h2 h3

theorem writeProfileWith_secure (rk : RemoveFn) (p : Profile) (exp : String) (s : Store) :
    (writeProfileWith rk p exp s).secure = writeProfileSecure p exp s.secure := rfl

/-! ## Claim theorems: the write path -/

/-- C1: for every profile and every live-mode API key whose trimmed value is
non-empty, `writeProfile` stores exactly the redacted representation
`RedactAPIKey(trim(k))` — which differs from the raw trimmed key — under the
profile's `live_mode_api_key` field of the persisted plaintext backend,
while the secure backend receives the raw trimmed key under the same field. -/
theorem writeProfile_liveModeKey_redacted_split (p : Profile) (exp : String) (s : Store)
    (hal : s.viper.aliases = []) (hk : trimSpace p.LiveModeAPIKey ≠ "") :
    lookupKV ((p.writeProfile exp s).file.getD []) (p.GetConfigField LiveModeAPIKeyName) =
      some (RedactAPIKey (trimSpace p.LiveModeAPIKey)) ∧
    RedactAPIKey (trimSpace p.LiveModeAPIKey) ≠ trimSpace p.LiveModeAPIKey ∧
    lookupKV (p.writeProfile exp s).secure (p.GetConfigField LiveModeAPIKeyName) =
      some (trimSpace p.LiveModeAPIKey) := by
  have hK : p.LiveModeAPIKey ≠ "" := ne_empty_of_trim _ hk
  refine ⟨?_, RedactAPIKey_ne _ hk, ?_⟩
  · rw [Profile.writeProfile,
      writeProfileWith_file_lookup removeKey removeKey_isRemover p exp s hal _
        (GetConfigField_ne p _ _ (by decide)) (GetConfigField_ne p _ _ (by decide))
        (GetConfigField_ne p _ _ (by decide)),
      wsLookup_live p exp hK]
    rfl
  · show lookupKV (writeProfileSecure p exp s.secure) _ = _
    exact secure_lookup_live p exp s.secure hK

theorem writeProfile_liveModeKey_redacted_split_witness :
    emptyStore.viper.aliases = [] ∧ trimSpace liveProfile.LiveModeAPIKey ≠ "" ∧
    (lookupKV ((liveProfile.writeProfile "2026-11-01" emptyStore).file.getD [])
        (liveProfile.GetConfigField LiveModeAPIKeyName) =
      some (RedactAPIKey (trimSpace liveProfile.LiveModeAPIKey)) ∧
    RedactAPIKey (trimSpace liveProfile.LiveModeAPIKey) ≠ trimSpace liveProfile.LiveModeAPIKey ∧
    lookupKV (liveProfile.writeProfile "2026-11-01" emptyStore).secure
        (liveProfile.GetConfigField LiveModeAPIKeyName) =
      some (trimSpace liveProfile.LiveModeAPIKey)) :=
  ⟨rfl, by decide,
    writeProfile_liveModeKey_redacted_split liveProfile "2026-11-01" emptyStore rfl (by decide)⟩

/-- C9: in every `writeProfile` run with a non-empty live-mode API key, the
persisted plaintext backend holds both the (redacted) key and its
`live_mode_key_expires_at` companion computed in this write, and the secure
backend holds both the raw trimmed key and the same expiry — the two fields
are committed by the same write. -/
theorem writeProfile_liveModeKey_with_expiry (p : Profile) (exp : String) (s : Store)
    (hal : s.viper.aliases = []) (hk : p.LiveModeAPIKey ≠ "") :
    lookupKV ((p.writeProfile exp s).file.getD []) (p.GetConfigField LiveModeAPIKeyName) =
      some (RedactAPIKey (trimSpace p.LiveModeAPIKey)) ∧
    lookupKV ((p.writeProfile exp s).file.getD []) (p.GetConfigField LiveModeExpiresAtName) =
      some exp ∧
    lookupKV (p.writeProfile exp s).secure (p.GetConfigField LiveModeAPIKeyName) =
      some (trimSpace p.LiveModeAPIKey) ∧
    lookupKV (p.writeProfile exp s).secure (p.GetConfigField LiveModeExpiresAtName) =
      some exp := by
  refine ⟨?_, ?_, ?_, ?_⟩
  · rw [Profile.writeProfile,
      writeProfileWith_file_lookup removeKey removeKey_isRemover p exp s hal _
        (GetConfigField_ne p _ _ (by decide)) (GetConfigField_ne p _ _ (by decide))
        (GetConfigField_ne p _ _ (by decide)),
      wsLookup_live p exp hk]
    rfl
  · rw [Profile.writeProfile,
      writeProfileWith_file_lookup removeKey removeKey_isRemover p exp s hal _
        (GetConfigField_ne p _ _ (by decide)) (GetConfigField_ne p _ _ (by decide))
        (GetConfigField_ne p _ _ (by decide)),
      wsLookup_liveExp p exp hk]
    rfl
  · show lookupKV (writeProfileSecure p exp s.secure) _ = _
    exact secure_lookup_live p exp s.secure hk
  · show lookupKV (writeProfileSecure p exp s.secure) _ = _
    exact secure_lookup_liveExp p exp s.secure hk

theorem writeProfile_liveModeKey_with_expiry_witness :
    emptyStore.viper.aliases = [] ∧ liveProfile.LiveModeAPIKey ≠ "" ∧
    (lookupKV ((liveProfile.writeProfile "2026-11-01" emptyStore).file.getD [])
        (liveProfile.GetConfigField LiveModeAPIKeyName) =
      some (RedactAPIKey (trimSpace liveProfile.LiveModeAPIKey)) ∧
    lookupKV ((liveProfile.writeProfile "2026-11-01" emptyStore).file.getD [])
        (liveProfile.GetConfigField LiveModeExpiresAtName) = some "2026-11-01" ∧
    lookupKV (liveProfile.writeProfile "2026-11-01" emptyStore).secure
        (liveProfile.GetConfigField LiveModeAPIKeyName) =
      some (trimSpace liveProfile.LiveModeAPIKey) ∧
    lookupKV (liveProfile.writeProfile "2026-11-01" emptyStore).secure
        (liveProfile.GetConfigField LiveModeExpiresAtName) = some "2026-11-01") :=
  ⟨rfl, by decide,
    writeProfile_liveModeKey_with_expiry liveProfile "2026-11-01" emptyStore rfl (by decide)⟩

/-- C7: in every `writeProfile` run with a non-empty test-mode API key,
against any remover observing the external `Delete` contract — including one
that fails on every call — the write completes and the canonical
`test_mode_api_key` field is persisted; with the concrete remover the legacy
`secret_key` and `api_key` fields of the profile are absent from the
persisted map, as is `publishable_key` after a test-mode publishable key
write.  (The write path swallows remover failures by construction:
`writeProfileWith` is total in the remover's outcomes.) -/
theorem writeProfile_legacy_cleanup_best_effort (rk : RemoveFn) (hrk : IsRemover rk)
    (p : Profile) (exp : String) (s : Store) (hal : s.viper.aliases = [])
    (hT : p.TestModeAPIKey ≠ "") :
    lookupKV ((writeProfileWith rk p exp s).file.getD [])
        (p.GetConfigField TestModeAPIKeyName) = some (trimSpace p.TestModeAPIKey) ∧
    lookupKV ((p.writeProfile exp s).file.getD []) (p.GetConfigField "secret_key") = none ∧
    lookupKV ((p.writeProfile exp s).file.getD []) (p.GetConfigField "api_key") = none ∧
    (p.TestModePublishableKey ≠ "" →
      lookupKV ((p.writeProfile exp s).file.getD [])
        (p.GetConfigField "publishable_key") = none) := by
  refine ⟨?_, ?_, ?_, ?_⟩
  · rw [writeProfileWith_file_lookup rk hrk p exp s hal _
        (GetConfigField_ne p _ _ (by decide)) (GetConfigField_ne p _ _ (by decide))
        (GetConfigField_ne p _ _ (by decide)),
      wsLookup_test p exp hT]
    rfl
  · exact (lookupKV_cleanup_legacy p _ (mergeStep_aliases p exp s.viper s.file hal) hT).1
  · exact (lookupKV_cleanup_legacy p _ (mergeStep_aliases p exp s.viper s.file hal) hT).2
  · intro hTP
    exact lookupKV_cleanup_pub p _ (mergeStep_aliases p exp s.viper s.file hal) hTP

theorem writeProfile_legacy_cleanup_best_effort_witness :
    IsRemover failRemove ∧ emptyStore.viper.aliases = [] ∧
    testProfile.TestModeAPIKey ≠ "" ∧
    (lookupKV ((writeProfileWith failRemove testProfile "2026-11-01" emptyStore).file.getD [])
        (testProfile.GetConfigField TestModeAPIKeyName) =
      some (trimSpace testProfile.TestModeAPIKey) ∧
    lookupKV ((testProfile.writeProfile "2026-11-01" emptyStore).file.getD [])
        (testProfile.GetConfigField "secret_key") = none ∧
    lookupKV ((testProfile.writeProfile "2026-11-01" emptyStore).file.getD [])
        (testProfile.GetConfigField "api_key") = none ∧
    (testProfile.TestModePublishableKey ≠ "" →
      lookupKV ((testProfile.writeProfile "2026-11-01" emptyStore).file.getD [])
        (testProfile.GetConfigField "publishable_key") = none)) :=
  ⟨fun _ _ _ h => absurd h (by simp [failRemove]), rfl, by decide,
    writeProfile_legacy_cleanup_best_effort failRemove
      (fun _ _ _ h => absurd h (by simp [failRemove])) testProfile "2026-11-01" emptyStore
      rfl (by decide)⟩

/-- C10: `WriteConfigField` stores the given value verbatim — untrimmed,
unredacted — under the profile-namespaced field in the persisted plaintext
backend, and leaves the secure backend untouched, whatever the field name
(including live-mode credential field names). -/
theorem WriteConfigField_verbatim (p : Profile) (field value : String) (s : Store)
    (hal : s.viper.aliases = []) :
    lookupKV ((p.WriteConfigField field value s).file.getD []) (p.GetConfigField field) =
      some value ∧
    (p.WriteConfigField field value s).secure = s.secure := by
  constructor
  · show lookupKV (s.viper.set (p.GetConfigField field) value).allSettings _ = _
    rw [Viper.allSettings, lookupKV_unionKV,
      show (s.viper.set (p.GetConfigField field) value).override =
        setKV s.viper.override (p.GetConfigField field) value from
        set_override_of_aliases_nil s.viper hal _ _,
      lookupKV_setKV, if_pos rfl]
    rfl
  · rfl

theorem WriteConfigField_verbatim_witness :
    emptyStore.viper.aliases = [] ∧
    (lookupKV ((devProfile.WriteConfigField LiveModeAPIKeyName " sk_live_raw42 "
        emptyStore).file.getD []) (devProfile.GetConfigField LiveModeAPIKeyName) =
      some " sk_live_raw42 " ∧
    (devProfile.WriteConfigField LiveModeAPIKeyName " sk_live_raw42 " emptyStore).secure =
      emptyStore.secure) :=
  ⟨rfl, WriteConfigField_verbatim devProfile LiveModeAPIKeyName " sk_live_raw42 " emptyStore rfl⟩

/-! ## The read path -/

theorem GetAPIKey_testmode_ignores_secure (p : Profile) (envKey : String) (s : Store)
    (sec2 : KV) :
    (p.GetAPIKey false envKey { s with secure := sec2 }).1 =
      (p.GetAPIKey false envKey s).1 := by
  unfold Profile.GetAPIKey Profile.apiKeyAliasStep
  dsimp only
  by_cases h1 : (envKey != "") = true
  · simp only [if_pos h1]
  · simp only [if_neg h1]
    by_cases h2 : (p.APIKey != "") = true
    · simp only [if_pos h2]
    · simp only [if_neg h2]
      rw [if_neg Bool.false_ne_true, if_neg Bool.false_ne_true]
      by_cases hset : s.viper.isSet (p.GetConfigField "api_key") = true
      · rw [if_pos hset, if_pos hset]
        cases hf : s.file <;> simp [hf, Viper.getString]
      · rw [if_neg hset, if_neg hset]
        cases hf : s.file <;> simp [hf, Viper.getString]

theorem GetAPIKey_false_reads_test (p : Profile) (V : Viper) (FM : KV) (sec : KV) (w : String)
    (hal : V.aliases = []) (hA : p.APIKey = "")
    (hov : lookupKV V.override (p.GetConfigField TestModeAPIKeyName) = some w)
    (hV : validateAPIKey w = none) :
    (p.GetAPIKey false "" { viper := V, file := some FM, secure := sec }).1 = .ok w := by
  have hne_as : p.GetConfigField "api_key" ≠ p.GetConfigField "secret_key" :=
    GetConfigField_ne p _ _ (by decide)
  have hne_at : p.GetConfigField "api_key" ≠ p.GetConfigField TestModeAPIKeyName :=
    GetConfigField_ne p _ _ (by decide)
  have hne_ta : p.GetConfigField TestModeAPIKeyName ≠ p.GetConfigField "api_key" :=
    GetConfigField_ne p _ _ (by decide)
  unfold Profile.GetAPIKey Profile.apiKeyAliasStep
  dsimp only
  rw [if_neg (by simp), if_neg (by simp [hA]), if_neg Bool.false_ne_true]
  by_cases hset : V.isSet (p.GetConfigField "api_key") = true
  · rw [if_pos hset]
    unfold Viper.registerAlias
    rw [realKey_of_aliases_nil V hal,
      if_neg (by simp [hne_ta]),
      if_neg (by simp [hal, lookupKV])]
    have hmov : moveKV V.override (p.GetConfigField TestModeAPIKeyName)
        (p.GetConfigField "api_key") =
        setKV (eraseKV V.override (p.GetConfigField TestModeAPIKeyName))
          (p.GetConfigField "api_key") w := by
      simp only [moveKV, hov]
    dsimp only
    rw [livemodeKeyField, if_neg Bool.false_ne_true, if_neg Bool.false_ne_true]
    have hrk : Viper.realKey
        { override := moveKV V.override (p.GetConfigField TestModeAPIKeyName)
            (p.GetConfigField "api_key"),
          config := FM,
          aliases := (p.GetConfigField TestModeAPIKeyName, p.GetConfigField "api_key")
            :: V.aliases,
          fileAssoc := V.fileAssoc }
        (p.GetConfigField TestModeAPIKeyName) = p.GetConfigField "api_key" := by
      simp [Viper.realKey, hal, realKeyAux, lookupKV]
    rw [Viper.getString, Viper.find]
    dsimp only
    rw [hrk, hmov, lookupKV_setKV, if_pos rfl]
    simp [hV]
  · rw [if_neg hset]
    unfold Viper.registerAlias
    rw [realKey_of_aliases_nil V hal,
      if_neg (by simp [hne_as]),
      if_neg (by simp [hal, lookupKV])]
    have hovapi : lookupKV V.override (p.GetConfigField "api_key") = none := by
      cases hx : lookupKV V.override (p.GetConfigField "api_key") with
      | none => rfl
      | some y =>
        exfalso
        apply hset
        rw [Viper.isSet, Viper.find, realKey_of_aliases_nil V hal]
        rw [hx]
        rfl
    have hmov : moveKV V.override (p.GetConfigField "api_key")
        (p.GetConfigField "secret_key") = V.override := by
      simp only [moveKV, hovapi]
    dsimp only
    rw [livemodeKeyField, if_neg Bool.false_ne_true, if_neg Bool.false_ne_true]
    have hrk : Viper.realKey
        { override := moveKV V.override (p.GetConfigField "api_key")
            (p.GetConfigField "secret_key"),
          config := FM,
          aliases := (p.GetConfigField "api_key", p.GetConfigField "secret_key")
            :: V.aliases,
          fileAssoc := V.fileAssoc }
        (p.GetConfigField TestModeAPIKeyName) = p.GetConfigField TestModeAPIKeyName := by
      simp [Viper.realKey, hal, realKeyAux, lookupKV, hne_at]
    rw [Viper.getString, Viper.find]
    dsimp only
    rw [hrk, hmov, hov]
    simp [hV]

theorem mergeStep_override (p : Profile) (exp : String) (runtime : Viper) (file : Option KV) :
    (if (writeProfileSets p exp runtime).fileAssoc then
      match file with
      | some fm => (writeProfileSets p exp runtime).mergeFileMap fm
      | none => writeProfileSets p exp runtime
     else writeProfileSets p exp runtime).override =
      (writeProfileSets p exp runtime).override := by
  split
  · cases file <;> rfl
  · rfl

/-- C6: writing a non-empty test-mode API key with `writeProfile` and then
reading `GetAPIKey(false)` — with no environment override and no in-memory
`APIKey`, and no live-mode fields pending — returns the trimmed key
(assuming it passes format validation); the write leaves the secure backend
unchanged and the read result is independent of the secure backend's
contents. -/
theorem testModeKey_roundtrip (p : Profile) (exp : String) (s : Store)
    (hal : s.viper.aliases = []) (hK : p.TestModeAPIKey ≠ "")
    (hV : validateAPIKey (trimSpace p.TestModeAPIKey) = none)
    (hA : p.APIKey = "") (hL : p.LiveModeAPIKey = "")
    (hLP : p.LiveModePublishableKey = "") :
    (p.GetAPIKey false "" (p.writeProfile exp s)).1 = .ok (trimSpace p.TestModeAPIKey) ∧
    (p.writeProfile exp s).secure = s.secure ∧
    ∀ sec2, (p.GetAPIKey false "" { p.writeProfile exp s with secure := sec2 }).1 =
      (p.GetAPIKey false "" (p.writeProfile exp s)).1 := by
  have hW : (p.writeProfile exp s).viper.aliases = [] :=
    mergeStep_aliases p exp s.viper s.file hal
  have hWov : lookupKV (p.writeProfile exp s).viper.override
      (p.GetConfigField TestModeAPIKeyName) = some (trimSpace p.TestModeAPIKey) := by
    have h1 : (p.writeProfile exp s).viper.override =
        (writeProfileSets p exp s.viper).override := mergeStep_override p exp s.viper s.file
    rw [h1, writeProfileSets_eq_setList, lookupKV_setList_override _ _ hal,
      wsLookup_test p exp hK]
    rfl
  refine ⟨?_, ?_, ?_⟩
  · exact GetAPIKey_false_reads_test p (p.writeProfile exp s).viper _ _ _ hW hA hWov hV
  · show writeProfileSecure p exp s.secure = s.secure
    exact secure_unchanged p exp s.secure hL hLP
  · intro sec2
    exact GetAPIKey_testmode_ignores_secure p "" (p.writeProfile exp s) sec2

theorem testModeKey_roundtrip_witness :
    legacyStore.viper.aliases = [] ∧ testProfile.TestModeAPIKey ≠ "" ∧
    validateAPIKey (trimSpace testProfile.TestModeAPIKey) = none ∧
    testProfile.APIKey = "" ∧ testProfile.LiveModeAPIKey = "" ∧
    testProfile.LiveModePublishableKey = "" ∧
    ((testProfile.GetAPIKey false ""
        (testProfile.writeProfile "2026-11-01" legacyStore)).1 =
      .ok (trimSpace testProfile.TestModeAPIKey) ∧
    (testProfile.writeProfile "2026-11-01" legacyStore).secure = legacyStore.secure ∧
    ∀ sec2, (testProfile.GetAPIKey false ""
        { testProfile.writeProfile "2026-11-01" legacyStore with secure := sec2 }).1 =
      (testProfile.GetAPIKey false ""
        (testProfile.writeProfile "2026-11-01" legacyStore)).1) :=
  ⟨rfl, by decide, by decide, rfl, rfl, rfl,
    testModeKey_roundtrip testProfile "2026-11-01" legacyStore rfl (by decide) (by decide)
      rfl rfl rfl⟩

/-- C3: `GetAPIKey` returns exactly the validator's verdict on the candidate
selected by source precedence — whatever source the candidate came from
(environment override, in-memory key, plaintext config or secure backend),
it is passed through the key-format validator first, a failed validation
turns into the corresponding error even though a value was found, and only
a complete absence of candidates yields `APIKeyNotConfigured` directly. -/
theorem GetAPIKey_validates_every_candidate (p : Profile) (livemode : Bool)
    (envKey : String) (s : Store) :
    (p.GetAPIKey livemode envKey s).1 =
      match apiKeyCandidateSpec p livemode envKey s with
      | none => .error .APIKeyNotConfigured
      | some v =>
        match validateAPIKey v with
        | some e => .error e
        | none => .ok v := by
  unfold Profile.GetAPIKey apiKeyCandidateSpec
  by_cases h1 : (envKey != "") = true
  · simp only [if_pos h1]
  · simp only [if_neg h1]
    by_cases h2 : (p.APIKey != "") = true
    · simp only [if_pos h2]
    · simp only [if_neg h2]
      cases hf : (p.apiKeyAliasStep livemode s).file with
      | some fm => simp only [hf]
      | none => simp only [hf]

/-- C2 (code bug): with only the legacy `secret_key` persisted — holding a
well-formed test key — and no override or in-memory key, `GetAPIKey(false)`
registers the alias `api_key -> secret_key` (a direct read of `api_key`
afterwards does yield the legacy value) but then reads the unaliased
canonical `test_mode_api_key`, finds nothing, and fails with
`APIKeyNotConfigured` instead of returning the legacy value, against the
source's own stated intent of reading from `secret_key`. -/
theorem GetAPIKey_legacy_migration_fails :
    validateAPIKey "sk_test_legacy" = none ∧
    (legacyProfile.GetAPIKey false "" legacyStore).1 = .error .APIKeyNotConfigured ∧
    (legacyProfile.GetAPIKey false "" legacyStore).2.viper.getString
      (legacyProfile.GetConfigField "api_key") = "sk_test_legacy" :=
  ⟨rfl, rfl, rfl⟩

/-- C4 counterexample: with no environment override, no in-memory device
name, and a readable config file that has no `device_name` field — so none
of the three sources holds a value — `GetDeviceName` returns the empty
string without an error rather than failing with `DeviceNameNotConfigured`. -/
theorem GetDeviceName_quiet_empty :
    devProfile.DeviceName = "" ∧
    lookupKV devStore.viper.config (devProfile.GetConfigField DeviceNameName) = none ∧
    (devProfile.GetDeviceName "" devStore).1 = .ok "" ∧
    (devProfile.GetDeviceName "" devStore).1 ≠ .error .DeviceNameNotConfigured :=
  ⟨rfl, rfl, rfl, fun h => Except.noConfusion h⟩

/-- C4 amended: `GetDeviceName` resolves environment override, then the
in-memory field, then — whenever the config file is readable — the persisted
field, returning the empty string with no error when that field is unset;
it fails with `DeviceNameNotConfigured` only when the config file cannot be
read. -/
theorem GetDeviceName_resolution (p : Profile) (envDevice : String) (s : Store) :
    (p.GetDeviceName envDevice s).1 =
      if envDevice ≠ "" then .ok envDevice
      else if p.DeviceName ≠ "" then .ok p.DeviceName
      else
        match s.file with
        | some fm =>
          .ok (Viper.getString { s.viper with config := fm }
            (p.GetConfigField DeviceNameName))
        | none => .error .DeviceNameNotConfigured := by
  unfold Profile.GetDeviceName
  by_cases h1 : envDevice = ""
  · rw [if_neg (show ¬ ((envDevice != "") = true) by simp [h1]),
      if_neg (show ¬ (envDevice ≠ "") by simp [h1])]
    by_cases h2 : p.DeviceName = ""
    · rw [if_neg (show ¬ ((p.DeviceName != "") = true) by simp [h2]),
        if_neg (show ¬ (p.DeviceName ≠ "") by simp [h2])]
      cases hf : s.file <;> simp [hf]
    · rw [if_pos (show (p.DeviceName != "") = true by simp [h2]), if_pos h2]
  · rw [if_pos (show (envDevice != "") = true by simp [h1]), if_pos h1]

/-- C5 counterexample: a cross-profile override holding the unsupported
value `"purple"` is returned as-is by `GetColor`, with no error — the
override level is not validated against the recognised enumeration. -/
theorem GetColor_global_override_unvalidated :
    colorStore.viper.getString "color" = "purple" ∧
    colorProfile.GetColor colorStore = .ok "purple" ∧
    ∀ e, colorProfile.GetColor colorStore ≠ .error e :=
  ⟨rfl, rfl, fun _ h => Except.noConfusion h⟩

/-- C5 amended: `GetColor` resolves the global override, then the
per-profile persisted value, then the default; only the per-profile value is
validated against the recognised enumeration — a non-empty global override
is returned without validation, and the unsupported-value error fires
exactly for a per-profile value outside the enumeration (the empty value
counting as `auto`). -/
theorem GetColor_resolution (p : Profile) (s : Store) :
    (s.viper.getString "color" ≠ "" → p.GetColor s = .ok (s.viper.getString "color")) ∧
    (s.viper.getString "color" = "" →
      ((s.viper.getString (p.GetConfigField "color") = "" ∨
        s.viper.getString (p.GetConfigField "color") = ColorAuto) →
          p.GetColor s = .ok ColorAuto) ∧
      (s.viper.getString (p.GetConfigField "color") = ColorOn →
          p.GetColor s = .ok ColorOn) ∧
      (s.viper.getString (p.GetConfigField "color") = ColorOff →
          p.GetColor s = .ok ColorOff) ∧
      (s.viper.getString (p.GetConfigField "color") ≠ "" →
        s.viper.getString (p.GetConfigField "color") ≠ ColorAuto →
        s.viper.getString (p.GetConfigField "color") ≠ ColorOn →
        s.viper.getString (p.GetConfigField "color") ≠ ColorOff →
          p.GetColor s = .error
            (.ColorNotSupported (s.viper.getString (p.GetConfigField "color"))))) := by
  constructor
  · intro hg
    unfold Profile.GetColor
    rw [if_pos (show (s.viper.getString "color" != "") = true by simpa using hg)]
  · intro hg
    have hgb : ¬ ((s.viper.getString "color" != "") = true) := by simp [hg]
    refine ⟨?_, ?_, ?_, ?_⟩
    · intro hca
      unfold Profile.GetColor
      rw [if_neg hgb, if_pos hca]
    · intro hco
      unfold Profile.GetColor
      rw [if_neg hgb, if_neg (by rw [hco]; decide), if_pos hco]
    · intro hcf
      unfold Profile.GetColor
      rw [if_neg hgb, if_neg (by rw [hcf]; decide), if_neg (by rw [hcf]; decide)]
      rw [if_pos hcf]
    · intro hc1 hc2 hc3 hc4
      unfold Profile.GetColor
      rw [if_neg hgb, if_neg (by simp [hc1, hc2]), if_neg hc3, if_neg hc4]

theorem GetColor_resolution_witness :
    colorStore.viper.getString "color" ≠ "" ∧
    colorProfile.GetColor colorStore = .ok (colorStore.viper.getString "color") :=
  ⟨by decide, (GetColor_resolution colorProfile colorStore).1 (by decide)⟩

/-- C8 counterexample: `DeleteConfigField` re-runs the profile write path,
so a profile whose in-memory `DeviceName` is populated does not leave the
other persisted fields unchanged — deleting `color` also rewrites the
persisted `device_name` from `"old"` to `"newdev"`. -/
theorem DeleteConfigField_rewrites_inmemory_fields :
    lookupKV (delStore.file.getD []) (delProfile.GetConfigField DeviceNameName) =
      some "old" ∧
    (delProfile.DeleteConfigField "color" "2026-11-01" delStore).map
        (fun s2 => lookupKV (s2.file.getD []) (delProfile.GetConfigField DeviceNameName)) =
      .ok (some "newdev") :=
  ⟨rfl, rfl⟩

/-- C8 amended: for a profile with no populated in-memory write-intent
fields, against a backend state freshly loaded from the config file (no
pending overrides, no aliases), a successful `DeleteConfigField(field)`
removes exactly the one namespaced field from the persisted map, leaves
every other persisted binding unchanged, and leaves the secure backend
untouched (the equation holds for every secure-backend content, which the
operation neither reads nor writes). -/
theorem DeleteConfigField_exact (p : Profile) (field exp : String) (s : Store)
    (hD : p.DeviceName = "") (hL : p.LiveModeAPIKey = "")
    (hLP : p.LiveModePublishableKey = "") (hT : p.TestModeAPIKey = "")
    (hTP : p.TestModePublishableKey = "") (hDis : p.DisplayName = "")
    (hAcc : p.AccountID = "")
    (hov : s.viper.override = []) (_hal : s.viper.aliases = [])
    (hex : (lookupKV s.viper.config (p.GetConfigField field)).isSome) :
    p.DeleteConfigField field exp s =
      .ok { viper := s.viper,
            file := some (eraseKV s.viper.config (p.GetConfigField field)),
            secure := s.secure } := by
  have hall2 : s.viper.allSettings = s.viper.config := by
    rw [Viper.allSettings, hov, unionKV_nil_left]
  have hrm : removeKey s.viper (p.GetConfigField field) =
      .ok { override := [], config := eraseKV s.viper.config (p.GetConfigField field),
            aliases := [], fileAssoc := false } := by
    unfold removeKey
    rw [hall2, if_pos hex]
  unfold Profile.DeleteConfigField Profile.DeleteConfigFieldWith
  rw [hrm]
  simp only [writeProfileRun]
  rw [writeProfileSets_empty p exp _ hD hL hLP hT hTP hDis hAcc]
  dsimp only
  rw [if_neg Bool.false_ne_true,
    writeProfileCleanup_empty removeKey p _ hT hTP,
    secure_unchanged p exp _ hL hLP]
  show Except.ok
      ({ viper := s.viper,
         file := some (unionKV [] (eraseKV s.viper.config (p.GetConfigField field))),
         secure := s.secure } : Store) = _
  rw [unionKV_nil_left]

theorem DeleteConfigField_exact_witness :
    devProfile.DeviceName = "" ∧ delStore.viper.override = [] ∧
    delStore.viper.aliases = [] ∧
    (lookupKV delStore.viper.config (devProfile.GetConfigField "color")).isSome ∧
    devProfile.DeleteConfigField "color" "2026-11-01" delStore =
      .ok { viper := delStore.viper,
            file := some (eraseKV delStore.viper.config (devProfile.GetConfigField "color")),
            secure := delStore.secure } :=
  ⟨rfl, rfl, rfl, by decide,
    DeleteConfigField_exact devProfile "color" "2026-11-01" delStore rfl rfl rfl rfl rfl rfl
      rfl rfl rfl (by decide)⟩
